import Mathlib

/-!
Verification development for the TravelPlanner application (React + Leaflet).
The definitions below are a shallow embedding of the application component
TravelPlannerApp: its state hooks, the search handler, the booking handlers,
the localStorage persistence effect and the MapController synchronization
effects. JavaScript numbers are modelled as rationals, strings as Lean
strings, and the external collaborators (map widget, geocoding service,
localStorage) as explicit parameters or state fields.
-/

/-- JavaScript String.prototype.trim on character lists: drop whitespace from
both ends. -/
def trimChars (l : List Char) : List Char :=
  ((l.dropWhile Char.isWhitespace).reverse.dropWhile Char.isWhitespace).reverse

/-- Model of the .trim() calls in the component (JS trim semantics on the
whitespace characters relevant here). -/
def jsTrim (s : String) : String :=
  ⟨trimChars s.data⟩

/-- Model of JS String.prototype.toLowerCase (ASCII case folding suffices for
the catalog names involved). -/
def toLowerCase (s : String) : String :=
  ⟨s.data.map Char.toLower⟩

/-- Helper: does the character list start with the given pattern. -/
def startsWithL : List Char → List Char → Bool
  | [], _ => true
  | _ :: _, [] => false
  | p :: ps, c :: cs => p == c && startsWithL ps cs

/-- Helper: contiguous sublist test, pattern first argument. -/
def hasSubList (pat : List Char) : List Char → Bool
  | [] => startsWithL pat []
  | c :: cs => startsWithL pat (c :: cs) || hasSubList pat cs

/-- Model of JS String.prototype.includes: true when pat occurs as a
contiguous substring of s (always true for the empty pattern). -/
def jsIncludes (s pat : String) : Bool :=
  hasSubList pat.data s.data

/-- Destination ids: the catalog uses JS numbers, the geocoding fallback
synthesizes strings of the form osm-i. -/
inductive DestId where
  | numId (n : ℚ)
  | strId (s : String)
deriving DecidableEq, Repr

/-- A destination record as built in the component: id, display name,
coordinates stored as a latitude and longitude pair, and a summary. -/
structure Destination where
  id : DestId
  name : String
  coords : ℚ × ℚ
  summary : String
deriving DecidableEq, Repr

/-- SAMPLE_DESTINATIONS: the static catalog literal from the source. -/
def SAMPLE_DESTINATIONS : List Destination :=
  [ { id := .numId 1, name := "Paris, France", coords := (48.8566, 2.3522),
      summary := "Romantic city, rich museums, Eiffel Tower." },
    { id := .numId 2, name := "Tokyo, Japan", coords := (35.6895, 139.6917),
      summary := "Ultra-modern city with unique culture and food." },
    { id := .numId 3, name := "New York, USA", coords := (40.7128, -74.006),
      summary := "City that never sleeps — culture, finance, and food." },
    { id := .numId 4, name := "Goa, India", coords := (15.2993, 73.7898),
      summary := "Beaches, nightlife, and relaxed vibe." } ]

/-- The viewport state hook value: latitude, longitude and zoom. -/
structure ViewportS where
  latitude : ℚ
  longitude : ℚ
  zoom : ℚ
deriving DecidableEq, Repr

/-- The initial viewport from useState. -/
def initialViewport : ViewportS :=
  { latitude := 48.8566, longitude := 2.3522, zoom := 2.5 }

/-!
MapController model. The component mounts a MapController inside the
MapContainer with two effects:
  - an effect with dependency list [viewport.latitude, viewport.longitude,
    viewport.zoom] whose body calls map.setView with the current viewport
    (the imperative state-to-widget push); React runs it whenever the
    dependency values differ from those of its previous run;
  - a moveend subscription that, at end of gesture, reads the map center and
    zoom and calls onViewportChange, which the parent wires to
    setViewport(prev => ({ ...prev, ...v })) — since v carries all three
    fields, this overwrites the whole viewport.
The state below records the viewport hook value, the dependency values the
sync effect last ran with (none before the first run), the list of setView
commands issued to the widget, and the number of setViewport invocations.
-/
structure SyncState where
  viewport : ViewportS
  lastApplied : Option ViewportS
  cmds : List ViewportS
  svCalls : Nat
deriving DecidableEq, Repr

/-- The state-to-widget sync effect: after a render it fires exactly when the
viewport values differ from the dependency values of its last run, and its
body issues one map.setView command with the current viewport. -/
def syncEffect (s : SyncState) : SyncState :=
  if s.lastApplied = some s.viewport then s
  else { s with lastApplied := some s.viewport, cmds := s.cmds ++ [s.viewport] }

/-- A setViewport call with a full viewport value v (both the moveend handler
and the UI buttons supply all three fields), followed by the re-render and
the sync effect. -/
def applySetViewport (v : ViewportS) (s : SyncState) : SyncState :=
  syncEffect { s with viewport := v, svCalls := s.svCalls + 1 }

/-- The moveend (end-of-gesture) handler: it reads the reported center and
zoom and calls onViewportChange, i.e. setViewport. -/
def handleMoveEnd (reported : ViewportS) (s : SyncState) : SyncState :=
  applySetViewport reported s

/-- A booking record as constructed in handleConfirmBooking: id from
Date.now (a JS number), dest holding the selected destination (null when no
selection, hence an Option), the trimmed name and email, and the ISO date
string. -/
structure Booking where
  id : ℚ
  dest : Option Destination
  name : String
  email : String
  date : String
deriving DecidableEq, Repr

/-- A minimal JSON value model for the serialized booking collection. -/
inductive Json where
  | null : Json
  | num : ℚ → Json
  | str : String → Json
  | arr : List Json → Json
  | obj : List (String × Json) → Json
deriving Repr

/-- What localStorage holds at a key: nothing, a string that is not valid
JSON (JSON.parse throws on it), or a string whose parse yields some JSON
value. -/
inductive StoredVal where
  | missing : StoredVal
  | corrupt : StoredVal
  | json : Json → StoredVal
deriving Repr

/-- JSON encoding of a destination id (JS serializes the number or the
string directly). -/
def encodeDestId : DestId → Json
  | .numId n => .num n
  | .strId s => .str s

/-- JSON object produced by JSON.stringify for a destination record. -/
def encodeDest (d : Destination) : Json :=
  .obj [("id", encodeDestId d.id), ("name", .str d.name),
        ("coords", .arr [.num d.coords.1, .num d.coords.2]),
        ("summary", .str d.summary)]

/-- JSON value for the dest field: null when there was no selection. -/
def encodeODest : Option Destination → Json
  | none => .null
  | some d => encodeDest d

/-- JSON object produced by JSON.stringify for a booking record. -/
def encodeBooking (b : Booking) : Json :=
  .obj [("id", .num b.id), ("dest", encodeODest b.dest), ("name", .str b.name),
        ("email", .str b.email), ("date", .str b.date)]

/-- JSON array produced by JSON.stringify for the whole booking list. -/
def encodeBookings (bs : List Booking) : Json :=
  .arr (bs.map encodeBooking)

/-- Reading a destination id back from its JSON value. -/
def decodeDestId : Json → Option DestId
  | .num n => some (.numId n)
  | .str s => some (.strId s)
  | _ => none

/-- Reading a destination back from its JSON object (the shape the rest of
the component relies on when it consumes rehydrated bookings). -/
def decodeDest : Json → Option Destination
  | .obj [(k1, jid), (k2, .str n), (k3, .arr [.num la, .num lo]), (k4, .str sm)] =>
      if k1 = "id" ∧ k2 = "name" ∧ k3 = "coords" ∧ k4 = "summary" then
        (decodeDestId jid).map (fun i => { id := i, name := n, coords := (la, lo), summary := sm })
      else none
  | _ => none

/-- Reading the dest field back: null means no selection was stored. -/
def decodeODest : Json → Option (Option Destination)
  | .null => some none
  | j => (decodeDest j).map some

/-- Reading a booking back from its JSON object. -/
def decodeBooking : Json → Option Booking
  | .obj [(k1, .num i), (k2, jd), (k3, .str n), (k4, .str e), (k5, .str dt)] =>
      if k1 = "id" ∧ k2 = "dest" ∧ k3 = "name" ∧ k4 = "email" ∧ k5 = "date" then
        (decodeODest jd).map (fun d => { id := i, dest := d, name := n, email := e, date := dt })
      else none
  | _ => none

/-- Reading a list of bookings back element by element. -/
def decodeBookingList : List Json → Option (List Booking)
  | [] => some []
  | j :: t =>
      match decodeBooking j, decodeBookingList t with
      | some b, some bs => some (b :: bs)
      | _, _ => none

/-- Reading the serialized collection back from a JSON value. -/
def decodeBookings : Json → Option (List Booking)
  | .arr xs => decodeBookingList xs
  | _ => none

/-- localStorage.setItem: the model keeps an association list, newest entry
first. -/
def setItem (k : String) (v : StoredVal) (σ : List (String × StoredVal)) :
    List (String × StoredVal) :=
  (k, v) :: σ

/-- localStorage.getItem: first entry for the key, missing when absent. -/
def getItem (k : String) : List (String × StoredVal) → StoredVal
  | [] => .missing
  | (k2, v) :: t => if k2 = k then v else getItem k t

/-- The useState initializer for bookings: getItem("tp_bookings"); a null
result or a JSON.parse exception yields [] (the try/catch), otherwise the
parsed value is used as the booking list. The result is an Option because a
successfully parsed value of an unexpected shape leaves the typed model (the
component applies no shape validation); the claims under verification only
concern the missing, corrupt and well-formed cases. -/
def initBookings (σ : List (String × StoredVal)) : Option (List Booking) :=
  match getItem "tp_bookings" σ with
  | .missing => some []
  | .corrupt => some []
  | .json j => decodeBookings j

/-- The remaining component state hooks relevant to the claims (darkMode is
purely cosmetic and omitted). -/
structure AppState where
  query : String
  results : List Destination
  selected : Option Destination
  viewport : ViewportS
  bookings : List Booking
  showBooking : Bool
deriving DecidableEq, Repr

/-- The world of one event-handler step: the component state, the
localStorage contents, and the observable effect journals (alert calls,
console.error logs, and the number of fetch calls to the geocoding
collaborator). -/
structure World where
  app : AppState
  storage : List (String × StoredVal)
  alerts : List String
  logs : List String
  remoteCalls : Nat

/-- The useEffect on [bookings]: serialize the full booking list under the
fixed key tp_bookings after every bookings change. -/
def persistEffect (w : World) : World :=
  { w with storage := setItem "tp_bookings" (.json (encodeBookings w.app.bookings)) w.storage }

/-- A Nominatim place record as consumed by handleSearch: display_name plus
latitude and longitude. The service transmits lat and lon as numeric
strings and the component applies parseFloat; that numeric parse is
abstracted to its resulting value here. -/
structure RemotePlace where
  display_name : String
  lat : ℚ
  lon : ℚ

/-- Outcome of the one fetch to the geocoding collaborator: either the
request or the JSON decoding of the response throws, or it yields a list of
place records. A null body is modelled as the empty list, matching
(data or []). -/
inductive RemoteOutcome where
  | fail : RemoteOutcome
  | ok : List RemotePlace → RemoteOutcome

/-- handleSearch: trim the query; an empty trimmed query restores the full
catalog; otherwise filter the catalog by case-insensitive substring match on
the name; with at least one local match set results, select the first match
and recenter at zoom 6; with no local match issue the single geocoding
request and handle its outcome (failure: log and empty results; success:
map the records to destinations with synthetic osm ids, set results, and
when a first record exists select it and recenter at zoom 6). -/
def handleSearch (remote : RemoteOutcome) (w : World) : World :=
  if jsTrim w.app.query = "" then
    { w with app := { w.app with results := SAMPLE_DESTINATIONS } }
  else
    match SAMPLE_DESTINATIONS.filter
        (fun d => jsIncludes (toLowerCase d.name) (toLowerCase (jsTrim w.app.query))) with
    | d0 :: rest =>
        { w with app := { w.app with
            results := d0 :: rest,
            selected := some d0,
            viewport := { latitude := d0.coords.1, longitude := d0.coords.2, zoom := 6 } } }
    | [] =>
        match remote with
        | .fail =>
            { w with app := { w.app with results := [] },
                     logs := w.logs ++ ["Geocoding error:"],
                     remoteCalls := w.remoteCalls + 1 }
        | .ok data =>
            match data.mapIdx (fun i p =>
                ({ id := .strId ("osm-" ++ toString i), name := p.display_name,
                   coords := (p.lat, p.lon), summary := p.display_name } : Destination)) with
            | [] =>
                { w with app := { w.app with results := [] },
                         remoteCalls := w.remoteCalls + 1 }
            | p0 :: ps =>
                { w with
                  app := { w.app with
                    results := p0 :: ps,
                    selected := some p0,
                    viewport := { latitude := p0.coords.1, longitude := p0.coords.2, zoom := 6 } },
                  remoteCalls := w.remoteCalls + 1 }

/-- The Reset button onClick: clear the query, restore the catalog as
results, and reset the viewport to the global default. -/
def resetClick (w : World) : World :=
  { w with app := { w.app with
      query := "",
      results := SAMPLE_DESTINATIONS,
      viewport := { latitude := 48.8566, longitude := 2.3522, zoom := 2.5 } } }

/-- The View button on a result entry: select it and recenter at zoom 6. -/
def viewClick (d : Destination) (w : World) : World :=
  { w with app := { w.app with
      selected := some d,
      viewport := { latitude := d.coords.1, longitude := d.coords.2, zoom := 6 } } }

/-- openBooking: select the destination and show the modal (the input refs
are cleared, which touches no state hook). -/
def openBooking (d : Destination) (w : World) : World :=
  { w with app := { w.app with selected := some d, showBooking := true } }

/-- handleConfirmBooking: trim the two inputs; when either is empty alert
and stop with no state change; otherwise prepend a new booking built from
Date.now (the now argument), the current selection, the trimmed contact
fields and the ISO date string, close the modal, alert success, and let the
persistence effect serialize the new list. -/
def handleConfirmBooking (nameInput emailInput : String) (now : ℚ) (iso : String)
    (w : World) : World :=
  if jsTrim nameInput = "" ∨ jsTrim emailInput = "" then
    { w with alerts := w.alerts ++ ["Please enter name and email"] }
  else
    persistEffect
      { w with app := { w.app with
                        bookings := { id := now, dest := w.app.selected,
                                      name := jsTrim nameInput, email := jsTrim emailInput,
                                      date := iso } :: w.app.bookings,
                        showBooking := false },
               alerts := w.alerts ++ ["Booking successful! (mock)"] }

/-- cancelBooking: the confirm dialog answer gates everything; a declined
dialog changes nothing; a confirmed one keeps only the bookings whose id
differs and the persistence effect serializes the filtered list. -/
def cancelBooking (confirmAnswer : Bool) (id : ℚ) (w : World) : World :=
  if confirmAnswer then
    persistEffect
      { w with app := { w.app with
                        bookings := w.app.bookings.filter (fun x => decide (x.id ≠ id)) } }
  else w

/-- The head of a dropWhile result never satisfies the predicate. -/
theorem head?_dropWhile_false {α : Type} (p : α → Bool) :
    ∀ (l : List α) (a : α), (l.dropWhile p).head? = some a → p a = false := by
  intro l
  induction l with
  | nil => intro a h; simp [List.dropWhile_nil] at h
  | cons b t ih =>
      intro a h
      by_cases hb : p b
      · rw [List.dropWhile_cons, if_pos hb] at h
        exact ih a h
      · rw [List.dropWhile_cons, if_neg hb] at h
        simp at h
        rw [h] at hb
        simpa using hb

/-- dropWhile is the identity on a list whose head fails the predicate. -/
theorem dropWhile_eq_self_of_head {α : Type} (p : α → Bool) (l : List α)
    (h : ∀ a, l.head? = some a → p a = false) : l.dropWhile p = l := by
  cases l with
  | nil => simp
  | cons b t =>
      have hb : p b = false := h b rfl
      rw [List.dropWhile_cons, if_neg (by simp [hb])]

/-- dropWhile is idempotent. -/
theorem dropWhile_dropWhile {α : Type} (p : α → Bool) (l : List α) :
    (l.dropWhile p).dropWhile p = l.dropWhile p :=
  dropWhile_eq_self_of_head p _ (head?_dropWhile_false p l)

/-- A nonempty dropWhile result keeps the last element of the list. -/
theorem getLast?_dropWhile {α : Type} (p : α → Bool) (l : List α)
    (h : l.dropWhile p ≠ []) : (l.dropWhile p).getLast? = l.getLast? := by
  induction l with
  | nil => simp
  | cons b t ih =>
      by_cases hb : p b
      · rw [List.dropWhile_cons, if_pos hb]
        rw [List.dropWhile_cons, if_pos hb] at h
        have ht : t ≠ [] := by
          intro he
          rw [he] at h
          exact h List.dropWhile_nil
        obtain ⟨c, t2, rfl⟩ := List.exists_cons_of_ne_nil ht
        rw [ih h, List.getLast?_cons_cons]
      · rw [List.dropWhile_cons, if_neg hb]

/-- Trimming character lists is idempotent. -/
theorem trimChars_idem (l : List Char) : trimChars (trimChars l) = trimChars l := by
  unfold trimChars
  by_cases hB : ((l.dropWhile Char.isWhitespace).reverse.dropWhile Char.isWhitespace) = []
  · rw [hB]
    simp
  · have h1 : ((l.dropWhile Char.isWhitespace).reverse.dropWhile Char.isWhitespace).reverse.dropWhile Char.isWhitespace
        = ((l.dropWhile Char.isWhitespace).reverse.dropWhile Char.isWhitespace).reverse := by
      apply dropWhile_eq_self_of_head
      intro a ha
      rw [List.head?_reverse] at ha
      rw [getLast?_dropWhile _ _ hB] at ha
      rw [List.getLast?_reverse] at ha
      exact head?_dropWhile_false _ _ _ ha
    rw [h1, List.reverse_reverse, dropWhile_dropWhile]

/-- Trimming strings is idempotent: a trimmed string has no leading or
trailing whitespace left for a second trim to remove. -/
theorem jsTrim_idem (s : String) : jsTrim (jsTrim s) = jsTrim s :=
  congrArg String.mk (trimChars_idem s.data)

/-- The initial viewport value as a concrete state for the sync model. -/
def parisVp : ViewportS := { latitude := 48.8566, longitude := 2.3522, zoom := 2.5 }

/-- A reported end-of-gesture position over Tokyo. -/
def tokyoVp : ViewportS := { latitude := 35.6895, longitude := 139.6917, zoom := 5 }

/-- A settled controller state: the sync effect has already pushed the
initial viewport to the widget once, on mount. -/
def syncStart : SyncState :=
  { viewport := parisVp, lastApplied := some parisVp, cmds := [parisVp], svCalls := 0 }

/-- C1 counterexample: after the widget reports an end-of-gesture position,
the controller does issue a further set view command for that same change.
The sync effect is keyed only on the viewport values, so the gesture-driven
setViewport re-fires it: the command list grows by the reported viewport,
contradicting the claim that no set view command is issued for a
gesture-originated update. -/
theorem C1_counterexample :
    (handleMoveEnd tokyoVp syncStart).viewport = tokyoVp ∧
    (handleMoveEnd tokyoVp syncStart).cmds ≠ syncStart.cmds := by
  have hpt : parisVp ≠ tokyoVp := by
    simp only [parisVp, tokyoVp, ne_eq, ViewportS.mk.injEq]
    norm_num
  constructor
  · simp [handleMoveEnd, applySetViewport, syncEffect, syncStart, hpt]
  · simp [handleMoveEnd, applySetViewport, syncEffect, syncStart, hpt]

/-- C1 (amended): for a genuinely new position (values differing from the
dependency values of the last sync-effect run), an end-of-gesture report
updates the viewport state to the reported center and zoom via exactly one
setViewport call and the value-keyed sync effect then re-issues exactly one
set view command carrying those same values (a redundant command targeting
the position the widget is already at); the immediately following echo of
the identical values — whether a widget moveend echo or a repeated
setViewport — leaves the command list unchanged, so the update cycle
reaches a fixed point after one redundant command instead of oscillating,
and a setViewport-driven change likewise issues exactly one set view
command. -/
theorem C1_amended_sync (s : SyncState) (r : ViewportS) (h : s.lastApplied ≠ some r) :
    (handleMoveEnd r s).viewport = r ∧
    (handleMoveEnd r s).cmds = s.cmds ++ [r] ∧
    (handleMoveEnd r s).svCalls = s.svCalls + 1 ∧
    (handleMoveEnd r s).lastApplied = some r ∧
    (applySetViewport r (applySetViewport r s)).cmds = (applySetViewport r s).cmds ∧
    (applySetViewport r (applySetViewport r s)).viewport = r := by
  simp only [handleMoveEnd, applySetViewport, syncEffect]
  have hc : (({ s with viewport := r, svCalls := s.svCalls + 1 } : SyncState).lastApplied
      = some ({ s with viewport := r, svCalls := s.svCalls + 1 } : SyncState).viewport) ↔
      (s.lastApplied = some r) := Iff.rfl
  rw [if_neg (hc.not.mpr h)]
  simp

/-- C1 amended witness at the concrete gesture from the Paris start state to
a Tokyo position. -/
theorem C1_amended_witness :
    (handleMoveEnd tokyoVp syncStart).viewport = tokyoVp ∧
    (handleMoveEnd tokyoVp syncStart).cmds = [parisVp, tokyoVp] := by
  have h := C1_amended_sync syncStart tokyoVp (by
    have hpt : parisVp ≠ tokyoVp := by
      simp only [parisVp, tokyoVp, ne_eq, ViewportS.mk.injEq]
      norm_num
    simp [syncStart, hpt])
  exact ⟨h.1, by simpa [syncStart] using h.2.1⟩

/-- A fresh world: initial component state over the given query, empty
storage and journals. -/
def mkWorld (q : String) : World :=
  { app := { query := q, results := SAMPLE_DESTINATIONS, selected := none,
             viewport := initialViewport, bookings := [], showBooking := false },
    storage := [], alerts := [], logs := [], remoteCalls := 0 }

/-- The Tokyo catalog entry, for concrete instances. -/
def tokyoDest : Destination :=
  { id := .numId 2, name := "Tokyo, Japan", coords := (35.6895, 139.6917),
    summary := "Ultra-modern city with unique culture and food." }

/-- C2: a non-empty trimmed query whose case-insensitive substring match
against the catalog names yields at least one match makes handleSearch
return exactly those local matches, select the first one and recenter the
viewport on its coordinates at zoom 6, with a result independent of the
remote collaborator and with the fetch counter, logs, alerts and storage
untouched: the remote geocoding collaborator is never contacted. -/
theorem C2_local_match (remote : RemoteOutcome) (w : World) (d0 : Destination)
    (rest : List Destination)
    (hq : jsTrim w.app.query ≠ "")
    (hl : SAMPLE_DESTINATIONS.filter
        (fun d => jsIncludes (toLowerCase d.name) (toLowerCase (jsTrim w.app.query))) = d0 :: rest) :
    handleSearch remote w =
      { w with app := { w.app with
          results := d0 :: rest,
          selected := some d0,
          viewport := { latitude := d0.coords.1, longitude := d0.coords.2, zoom := 6 } } } := by
  unfold handleSearch
  rw [if_neg hq, hl]

/-- C2 witness: the spec scenario for the query Tokyo, under both remote
behaviours. -/
theorem C2_witness :
    (handleSearch .fail (mkWorld "Tokyo")).app.results = [tokyoDest] ∧
    (handleSearch .fail (mkWorld "Tokyo")).app.selected = some tokyoDest ∧
    (handleSearch .fail (mkWorld "Tokyo")).app.viewport =
      { latitude := 35.6895, longitude := 139.6917, zoom := 6 } ∧
    (handleSearch .fail (mkWorld "Tokyo")).remoteCalls = 0 ∧
    handleSearch (.ok []) (mkWorld "Tokyo") = handleSearch .fail (mkWorld "Tokyo") := by
  have h1 := C2_local_match .fail (mkWorld "Tokyo") tokyoDest [] (by decide) (by rfl)
  have h2 := C2_local_match (.ok []) (mkWorld "Tokyo") tokyoDest [] (by decide) (by rfl)
  rw [h1, h2]
  refine ⟨rfl, rfl, rfl, rfl, rfl⟩

/-- C7: when the trimmed query is non-empty and has zero local matches, the
remote collaborator is consulted exactly once whatever it answers; a failed
request leaves an empty result set, appends one log entry and changes
nothing else (in particular the selection and viewport are unchanged and
the failure is not fatal), and an empty record list likewise leaves an
empty result set with the selection and viewport unchanged. -/
theorem C7_remote_fallback (w : World)
    (hq : jsTrim w.app.query ≠ "")
    (hl : SAMPLE_DESTINATIONS.filter
        (fun d => jsIncludes (toLowerCase d.name) (toLowerCase (jsTrim w.app.query))) = []) :
    handleSearch .fail w =
      { w with app := { w.app with results := [] },
               logs := w.logs ++ ["Geocoding error:"],
               remoteCalls := w.remoteCalls + 1 } ∧
    handleSearch (.ok []) w =
      { w with app := { w.app with results := [] },
               remoteCalls := w.remoteCalls + 1 } ∧
    (∀ data, (handleSearch (.ok data) w).remoteCalls = w.remoteCalls + 1) := by
  refine ⟨?_, ?_, ?_⟩
  · unfold handleSearch
    rw [if_neg hq, hl]
  · unfold handleSearch
    rw [if_neg hq, hl]
    rfl
  · intro data
    unfold handleSearch
    rw [if_neg hq, hl]
    dsimp only
    cases hm : data.mapIdx (fun i p =>
        ({ id := .strId ("osm-" ++ toString i), name := p.display_name,
           coords := (p.lat, p.lon), summary := p.display_name } : Destination)) with
    | nil => rfl
    | cons p0 ps => rfl

/-- C7 witness: the spec scenario for the query Nonexistentplace123 with a
failing remote and with a remote returning the empty list. -/
theorem C7_witness :
    (handleSearch .fail (mkWorld "Nonexistentplace123")).app.results = [] ∧
    (handleSearch .fail (mkWorld "Nonexistentplace123")).app.selected = none ∧
    (handleSearch .fail (mkWorld "Nonexistentplace123")).remoteCalls = 1 ∧
    (handleSearch .fail (mkWorld "Nonexistentplace123")).logs = ["Geocoding error:"] ∧
    (handleSearch (.ok []) (mkWorld "Nonexistentplace123")).app.results = [] ∧
    (handleSearch (.ok []) (mkWorld "Nonexistentplace123")).app.selected = none ∧
    (handleSearch (.ok []) (mkWorld "Nonexistentplace123")).remoteCalls = 1 := by
  have h := C7_remote_fallback (mkWorld "Nonexistentplace123") (by decide) (by rfl)
  rw [h.1, h.2.1]
  refine ⟨rfl, rfl, rfl, rfl, rfl, rfl, rfl⟩

/-- C8: a query that is empty after trimming makes handleSearch restore the
full catalog in its original order with everything else (selection,
viewport, journals, fetch counter) unchanged, and the Reset action — the
operation that clears the query — restores the catalog and resets the
viewport to the global default center (48.8566, 2.3522) at zoom 2.5. -/
theorem C8_empty_query_and_reset (remote : RemoteOutcome) (w : World)
    (hq : jsTrim w.app.query = "") :
    handleSearch remote w = { w with app := { w.app with results := SAMPLE_DESTINATIONS } } ∧
    (∀ w2 : World, resetClick w2 =
      { w2 with app := { w2.app with
          query := "",
          results := SAMPLE_DESTINATIONS,
          viewport := { latitude := 48.8566, longitude := 2.3522, zoom := 2.5 } } }) := by
  constructor
  · unfold handleSearch
    rw [if_pos hq]
  · intro w2
    rfl

/-- C8 witness: an all-whitespace query restores the catalog and keeps the
viewport, and Reset on a world with a pending query resets the viewport to
the global default. -/
theorem C8_witness :
    (handleSearch .fail (mkWorld "   ")).app.results = SAMPLE_DESTINATIONS ∧
    (handleSearch .fail (mkWorld "   ")).app.viewport = initialViewport ∧
    (resetClick (mkWorld "Goa")).app.query = "" ∧
    (resetClick (mkWorld "Goa")).app.viewport =
      { latitude := 48.8566, longitude := 2.3522, zoom := 2.5 } := by
  have h := C8_empty_query_and_reset .fail (mkWorld "   ") (by decide)
  rw [h.1, h.2 (mkWorld "Goa")]
  refine ⟨rfl, rfl, rfl, rfl⟩

/-- C4: a booking submission whose name or email is empty after trimming
(all-whitespace included) is rejected: the only observable effect is the
prompt alert, and the component state — in particular the booking ledger —
and the storage are exactly unchanged. -/
theorem C4_validation_reject (n e : String) (now : ℚ) (iso : String) (w : World)
    (h : jsTrim n = "" ∨ jsTrim e = "") :
    handleConfirmBooking n e now iso w =
      { w with alerts := w.alerts ++ ["Please enter name and email"] } := by
  unfold handleConfirmBooking
  rw [if_pos h]

/-- C4 witness: an all-whitespace name with a valid email is rejected and
the ledger, state and storage stay as they were. -/
theorem C4_witness :
    (handleConfirmBooking "   " "ada@example.com" 1700000000000 "2023-11-14T00:00:00.000Z"
        (mkWorld "")).app.bookings = [] ∧
    (handleConfirmBooking "   " "ada@example.com" 1700000000000 "2023-11-14T00:00:00.000Z"
        (mkWorld "")).app = (mkWorld "").app ∧
    (handleConfirmBooking "   " "ada@example.com" 1700000000000 "2023-11-14T00:00:00.000Z"
        (mkWorld "")).storage = [] ∧
    (handleConfirmBooking "   " "ada@example.com" 1700000000000 "2023-11-14T00:00:00.000Z"
        (mkWorld "")).alerts = ["Please enter name and email"] := by
  have h := C4_validation_reject "   " "ada@example.com" 1700000000000
    "2023-11-14T00:00:00.000Z" (mkWorld "") (Or.inl (by decide))
  rw [h]
  exact ⟨rfl, rfl, rfl, rfl⟩

/-- C10: a successful booking creation stores exactly the trimmed name and
trimmed email of the inputs; by idempotence of trimming the stored fields
carry no leading or trailing whitespace, and they are non-empty. -/
theorem C10_trimmed_contact (n e : String) (now : ℚ) (iso : String) (w : World)
    (hn : jsTrim n ≠ "") (he : jsTrim e ≠ "") :
    (handleConfirmBooking n e now iso w).app.bookings =
      { id := now, dest := w.app.selected, name := jsTrim n, email := jsTrim e,
        date := iso } :: w.app.bookings ∧
    jsTrim (jsTrim n) = jsTrim n ∧
    jsTrim (jsTrim e) = jsTrim e ∧
    jsTrim n ≠ "" ∧ jsTrim e ≠ "" := by
  refine ⟨?_, jsTrim_idem n, jsTrim_idem e, hn, he⟩
  unfold handleConfirmBooking
  rw [if_neg (not_or.mpr ⟨hn, he⟩)]
  rfl

/-- C10 witness: inputs with surrounding whitespace are stored trimmed. -/
theorem C10_witness :
    (handleConfirmBooking "  Ada " " ada@example.com " 1700000000001 "2023-11-14T00:00:01.000Z"
        (mkWorld "Paris")).app.bookings =
      [{ id := 1700000000001, dest := none, name := "Ada", email := "ada@example.com",
         date := "2023-11-14T00:00:01.000Z" }] ∧
    jsTrim "Ada" = "Ada" := by
  have h := C10_trimmed_contact "  Ada " " ada@example.com " 1700000000001
    "2023-11-14T00:00:01.000Z" (mkWorld "Paris") (by decide) (by decide)
  constructor
  · rw [h.1]
    rfl
  · rfl

/-- C6 counterexample: two creations whose Date.now values coincide (the
clock has millisecond resolution and the code nowhere enforces freshness)
produce two ledger entries with the same id, so the id of the new booking is
not distinct from the id of every other booking in the ledger. -/
theorem C6_counterexample :
    ((handleConfirmBooking "Bob" "bob@example.com" 1700000000000 "t2"
        (handleConfirmBooking "Ada" "ada@example.com" 1700000000000 "t1"
          (mkWorld ""))).app.bookings.map (fun b => b.id)) =
      [1700000000000, 1700000000000] ∧
    ¬ ((handleConfirmBooking "Bob" "bob@example.com" 1700000000000 "t2"
        (handleConfirmBooking "Ada" "ada@example.com" 1700000000000 "t1"
          (mkWorld ""))).app.bookings.map (fun b => b.id)).Nodup := by
  constructor
  · rfl
  · intro hnd
    have : (1700000000000 : ℚ) ≠ 1700000000000 := by
      have h2 := hnd
      rw [(by rfl : ((handleConfirmBooking "Bob" "bob@example.com" 1700000000000 "t2"
        (handleConfirmBooking "Ada" "ada@example.com" 1700000000000 "t1"
          (mkWorld ""))).app.bookings.map (fun b => b.id)) =
            [(1700000000000 : ℚ), 1700000000000])] at h2
      simp [List.nodup_cons] at h2
    exact this rfl

/-- C6 (amended): a successful creation builds the new booking with id equal
to the creation timestamp Date.now and prepends it, so the ledger is ordered
most-recent-first; the new id is distinct from the id of every other booking
in the ledger provided the creation timestamp differs from all existing ids
(which the code assumes but does not enforce). -/
theorem C6_amended (n e : String) (now : ℚ) (iso : String) (w : World)
    (hn : jsTrim n ≠ "") (he : jsTrim e ≠ "")
    (hid : now ∉ w.app.bookings.map (fun b => b.id)) :
    (handleConfirmBooking n e now iso w).app.bookings =
      { id := now, dest := w.app.selected, name := jsTrim n, email := jsTrim e,
        date := iso } :: w.app.bookings ∧
    ((handleConfirmBooking n e now iso w).app.bookings.map (fun b => b.id)).head? = some now ∧
    (∀ b ∈ w.app.bookings, b.id ≠ now) := by
  have heq : (handleConfirmBooking n e now iso w).app.bookings =
      { id := now, dest := w.app.selected, name := jsTrim n, email := jsTrim e,
        date := iso } :: w.app.bookings := by
    unfold handleConfirmBooking
    rw [if_neg (not_or.mpr ⟨hn, he⟩)]
    rfl
  refine ⟨heq, by rw [heq]; rfl, ?_⟩
  intro b hb hbid
  exact hid (hbid ▸ List.mem_map_of_mem (fun b => b.id) hb)

/-- C6 amended witness: creating a booking at a timestamp not yet present as
an id prepends it with that id. -/
theorem C6_amended_witness :
    (handleConfirmBooking "Ada" "ada@example.com" 42 "t1" (mkWorld "")).app.bookings =
      [{ id := 42, dest := none, name := "Ada", email := "ada@example.com", date := "t1" }] ∧
    ((handleConfirmBooking "Ada" "ada@example.com" 42 "t1"
        (mkWorld "")).app.bookings.map (fun b => b.id)).head? = some 42 := by
  have h := C6_amended "Ada" "ada@example.com" 42 "t1" (mkWorld "")
    (by decide) (by decide) (by simp [mkWorld])
  refine ⟨by rw [h.1]; rfl, h.2.1⟩

/-- C3: bookings are frame-invariant under every catalog, search,
result-set or selection operation — a search (whatever the remote answers),
a reset, a selection via View, and opening the booking modal leave every
stored booking, in particular its destination snapshot, untouched — and a
booking confirmation only prepends: the previous ledger survives as an
unchanged suffix, so no later operation alters the destination stored in an
existing booking. -/
theorem C3_snapshot (remote : RemoteOutcome) (w : World) (d : Destination)
    (n e : String) (now : ℚ) (iso : String) :
    (handleSearch remote w).app.bookings = w.app.bookings ∧
    (resetClick w).app.bookings = w.app.bookings ∧
    (viewClick d w).app.bookings = w.app.bookings ∧
    (openBooking d w).app.bookings = w.app.bookings ∧
    (∃ pre, (handleConfirmBooking n e now iso w).app.bookings = pre ++ w.app.bookings) ∧
    (∀ b ∈ w.app.bookings, b ∈ (handleConfirmBooking n e now iso w).app.bookings) := by
  have hs : (handleSearch remote w).app.bookings = w.app.bookings := by
    unfold handleSearch
    split
    · rfl
    · split
      · rfl
      · match remote with
        | .fail => rfl
        | .ok data =>
            dsimp only
            split
            · rfl
            · rfl
  refine ⟨hs, rfl, rfl, rfl, ?_, ?_⟩
  · unfold handleConfirmBooking
    by_cases hc : jsTrim n = "" ∨ jsTrim e = ""
    · rw [if_pos hc]
      exact ⟨[], rfl⟩
    · rw [if_neg hc]
      exact ⟨[{ id := now, dest := w.app.selected, name := jsTrim n, email := jsTrim e,
                date := iso }], rfl⟩
  · intro b hb
    unfold handleConfirmBooking
    by_cases hc : jsTrim n = "" ∨ jsTrim e = ""
    · rw [if_pos hc]
      exact hb
    · rw [if_neg hc]
      exact List.mem_cons_of_mem _ hb

/-- C9: cancelBooking is gated on the confirm dialog — a declined dialog
changes nothing at all; a confirmed cancel removes every booking carrying
the id (a no-op without error when none does), keeps all others, and
re-persists the resulting ledger under the fixed storage key. -/
theorem C9_cancel (id : ℚ) (w : World) :
    cancelBooking false id w = w ∧
    (id ∉ w.app.bookings.map (fun b => b.id) →
      (cancelBooking true id w).app.bookings = w.app.bookings) ∧
    id ∉ ((cancelBooking true id w).app.bookings.map (fun b => b.id)) ∧
    (∀ b ∈ w.app.bookings, b.id ≠ id → b ∈ (cancelBooking true id w).app.bookings) ∧
    getItem "tp_bookings" (cancelBooking true id w).storage =
      .json (encodeBookings ((cancelBooking true id w).app.bookings)) := by
  have hbk : (cancelBooking true id w).app.bookings =
      w.app.bookings.filter (fun x => decide (x.id ≠ id)) := rfl
  refine ⟨rfl, ?_, ?_, ?_, ?_⟩
  · intro hid
    rw [hbk]
    apply List.filter_eq_self.mpr
    intro b hb
    have : b.id ≠ id := by
      intro he
      exact hid (he ▸ List.mem_map_of_mem (fun b => b.id) hb)
    simpa using this
  · rw [hbk]
    intro hmem
    obtain ⟨b, hbf, hbid⟩ := List.mem_map.mp hmem
    have := (List.mem_filter.mp hbf).2
    simp at this
    exact this hbid
  · intro b hb hbid
    rw [hbk]
    exact List.mem_filter.mpr ⟨hb, by simpa using hbid⟩
  · rfl

/-- A ledger with two bookings for the concrete cancel instances. -/
def bookingOne : Booking :=
  { id := 1, dest := none, name := "Ada", email := "ada@example.com", date := "d1" }

/-- Second concrete booking, with a destination snapshot. -/
def bookingTwo : Booking :=
  { id := 2, dest := some tokyoDest, name := "Bob", email := "bob@example.com", date := "d2" }

/-- World with a two-entry ledger. -/
def wNine : World :=
  { app := { query := "", results := SAMPLE_DESTINATIONS, selected := none,
             viewport := initialViewport, bookings := [bookingOne, bookingTwo],
             showBooking := false },
    storage := [], alerts := [], logs := [], remoteCalls := 0 }

/-- C9 witness: declining changes nothing; cancelling an absent id (7)
leaves the ledger unchanged; cancelling id 2 removes exactly that
booking. -/
theorem C9_witness :
    cancelBooking false 7 wNine = wNine ∧
    (cancelBooking true 7 wNine).app.bookings = wNine.app.bookings ∧
    (cancelBooking true 2 wNine).app.bookings = [bookingOne] := by
  have h := C9_cancel 7 wNine
  refine ⟨h.1, h.2.1 (by simp [wNine, bookingOne, bookingTwo]), by rfl⟩

/-- Destination ids survive the serialization round trip. -/
theorem decodeDestId_encodeDestId (i : DestId) :
    decodeDestId (encodeDestId i) = some i := by
  cases i <;> rfl

/-- Destination records survive the serialization round trip. -/
theorem decodeDest_encodeDest (d : Destination) :
    decodeDest (encodeDest d) = some d := by
  obtain ⟨i, nm, ⟨la, lo⟩, sm⟩ := d
  simp [encodeDest, decodeDest, decodeDestId_encodeDestId]

/-- The optional destination snapshot survives the round trip. -/
theorem decodeODest_encodeODest (od : Option Destination) :
    decodeODest (encodeODest od) = some od := by
  cases od with
  | none => rfl
  | some d =>
      obtain ⟨i, nm, ⟨la, lo⟩, sm⟩ := d
      cases i <;> simp [encodeODest, encodeDest, decodeODest, decodeDest, decodeDestId, encodeDestId]

/-- Booking records survive the serialization round trip. -/
theorem decodeBooking_encodeBooking (b : Booking) :
    decodeBooking (encodeBooking b) = some b := by
  obtain ⟨i, od, nm, em, dt⟩ := b
  simp [encodeBooking, decodeBooking, decodeODest_encodeODest]

/-- Booking lists survive the element-wise round trip. -/
theorem decodeBookingList_map_encode (bs : List Booking) :
    decodeBookingList (bs.map encodeBooking) = some bs := by
  induction bs with
  | nil => rfl
  | cons b t ih => simp [decodeBookingList, decodeBooking_encodeBooking, ih]

/-- Rehydrating the value just persisted under the fixed key yields the very
same ordered collection. -/
theorem initBookings_persist (bs : List Booking) (σ : List (String × StoredVal)) :
    initBookings (setItem "tp_bookings" (.json (encodeBookings bs)) σ) = some bs := by
  simp [initBookings, setItem, getItem, encodeBookings, decodeBookings,
        decodeBookingList_map_encode]

/-- C5: serializing the booking collection under the fixed key tp_bookings
and rehydrating it at startup yields an identical ordered collection; a
missing key and a stored string on which JSON.parse throws both rehydrate to
the empty collection rather than an error; and after a mutation through a
confirmed cancel the persisted snapshot under the fixed key rehydrates to
exactly the mutated ledger. -/
theorem C5_persistence_roundtrip (bs : List Booking) (σ : List (String × StoredVal))
    (id : ℚ) (w : World) :
    initBookings (setItem "tp_bookings" (.json (encodeBookings bs)) σ) = some bs ∧
    initBookings (setItem "tp_bookings" .corrupt σ) = some [] ∧
    initBookings [] = some [] ∧
    initBookings ((cancelBooking true id w).storage) =
      some ((cancelBooking true id w).app.bookings) := by
  refine ⟨initBookings_persist bs σ, ?_, rfl, ?_⟩
  · simp [initBookings, setItem, getItem]
  · exact initBookings_persist _ _

/-- The Paris catalog entry, for the booking-snapshot scenario. -/
def parisDest : Destination :=
  { id := .numId 1, name := "Paris, France", coords := (48.8566, 2.3522),
    summary := "Romantic city, rich museums, Eiffel Tower." }

/-- World about to book Paris, France with the modal open. -/
def wAda : World :=
  { app := { query := "Tokyo", results := SAMPLE_DESTINATIONS, selected := some parisDest,
             viewport := initialViewport, bookings := [], showBooking := true },
    storage := [], alerts := [], logs := [], remoteCalls := 0 }

/-- The booking the Ada scenario creates. -/
def adaBooking : Booking :=
  { id := 5, dest := some parisDest, name := "Ada", email := "ada@example.com", date := "d1" }

/-- C3 witness: after booking Paris, France as Ada, a later search does not
alter the stored snapshot, and a later booking keeps the Ada entry in the
ledger. -/
theorem C3_witness :
    (handleSearch .fail (handleConfirmBooking "Ada" "ada@example.com" 5 "d1" wAda)).app.bookings
      = [adaBooking] ∧
    adaBooking ∈ (handleConfirmBooking "Bob" "bob@example.com" 6 "d2"
      (handleConfirmBooking "Ada" "ada@example.com" 5 "d1" wAda)).app.bookings := by
  have h := C3_snapshot .fail (handleConfirmBooking "Ada" "ada@example.com" 5 "d1" wAda)
    parisDest "Bob" "bob@example.com" 6 "d2"
  constructor
  · rw [h.1]
    rfl
  · refine h.2.2.2.2.2 adaBooking ?_
    show adaBooking ∈ [adaBooking]
    exact List.mem_singleton_self _
